import Mathlib

/-!
Verification of the photo-dedup repository (files `mediasort.py` and
`dedup.py`) against its natural-language specification.

The Python code is shallowly embedded: pure computations become Lean
functions, Python exceptions become `Except` values, in-place mutation of
the `Index` object becomes explicit state passing, and the external
collaborators (metadata extraction, the filesystem existence check, the
byte-copy primitive, JSON serialization) become oracle parameters or
fields carrying the value the collaborator would return (or the exception
it would raise).  String processing is done over `List Char` with
structurally recursive helpers so that every definition evaluates inside
the kernel.
-/

set_option maxRecDepth 8000

/-- Model of a Python `datetime.datetime` value: the components that
`datetime(year, month, day, ...)` stores.  `datetime` objects are always
truthy in Python, which the embedding reflects by never treating a present
`DTime` as absent. -/
structure DTime where
  year : Nat
  month : Nat
  day : Nat
  hour : Nat
  minute : Nat
  second : Nat
  micro : Nat
deriving DecidableEq, Repr

/-- The sentinel `datetime(1, 1, 1)` used by `FileDescriptor.is_same` in
`mediasort.py` for descriptors without a record time. -/
def dtSentinel : DTime := ⟨1, 1, 1, 0, 0, 0, 0⟩

/-- Python exceptions that the embedded code can raise. -/
inductive PyErr where
  /-- `ValueError`, e.g. from `datetime.strptime` on a malformed string or
  from `datetime(...)` with an out-of-range month. -/
  | valueError
  /-- failure raised by an external collaborator (PIL / ffmpeg metadata
  extraction, `json.dumps`). -/
  | extFailure (msg : String)
  /-- `NameError: name <n> is not defined`. -/
  | nameError (n : String)
deriving DecidableEq, Repr

/-- The `file_type` classification: {image, video, other}. -/
inductive MType where
  | image
  | video
  | other
deriving DecidableEq, Repr

/-- Model of the metadata mapping returned by the external extractors,
restricted to the keys that `record_time` consults.  A `none` field models
a key absent from the dict (`dict.get` returns `None`). -/
structure MetaDict where
  /-- EXIF `DateTimeOriginal` (image). -/
  dateTimeOriginal : Option String
  /-- EXIF `DateTime` (image). -/
  dateTime : Option String
  /-- ffprobe `format.tags.creation_time` (video). -/
  creationTime : Option String
deriving DecidableEq, Repr

/-- The empty metadata dict `{}`. -/
def emptyMeta : MetaDict := ⟨none, none, none⟩

/-- View of an `Except` value as a sum, to derive decidable equality. -/
def exceptToSum {ε α : Type} : Except ε α → Sum ε α
  | .error e => .inl e
  | .ok a => .inr a

instance {ε α : Type} [DecidableEq ε] [DecidableEq α] : DecidableEq (Except ε α) :=
  fun a b =>
    decidable_of_iff (exceptToSum a = exceptToSum b)
      (by cases a <;> cases b <;> simp [exceptToSum])

/-- Descriptor data shared by `mediasort.FileDescriptor` and
`dedup.FileDescriptor`: path, byte size, SHA1 hex fingerprint and mime
classification, plus the oracle field `metaResult` recording what the
type-specific external metadata extractor (`image_metadata` /
`video_metadata`) would return for this path — or the exception it would
raise. -/
structure FileDescriptor where
  path : String
  size : Nat
  hash : String
  typ : MType
  metaResult : Except PyErr MetaDict
deriving DecidableEq, Repr

/-! ### Character-list string helpers (structurally recursive) -/

/-- Split a character list at every occurrence of `sep`, keeping empty
pieces — the behavior of Python `str.split(sep)` for a one-character
separator. -/
def chSplit (sep : Char) : List Char → List (List Char)
  | [] => [[]]
  | c :: rest =>
    let r := chSplit sep rest
    if c = sep then [] :: r
    else
      match r with
      | [] => [[c]]
      | h :: t => (c :: h) :: t

/-- Numeric value of a digit list (the value `int` computes on it). -/
def digitsVal (l : List Char) : Nat :=
  l.foldl (fun n c => n * 10 + (c.toNat - 48)) 0

/-- Digits of a decimal string as a number; `none` unless nonempty and
all-ASCII-digits (the shape `int(...)` receives from the regexes used in
the source). -/
def chDigits? (l : List Char) : Option Nat :=
  if l ≠ [] ∧ l.all Char.isDigit then some (digitsVal l) else none

/-- Python `\s` character class (`re` whitespace). -/
def pyIsSpace (c : Char) : Bool :=
  c = ' ' ∨ c = '\t' ∨ c = '\n' ∨ c = '\r' ∨ c = '\x0b' ∨ c = '\x0c'

/-! ### `os.path` helpers -/

/-- Model of `os.path.split`: split at the final slash; the head keeps no trailing
slashes unless it consists only of slashes. -/
def ospathSplit (p : String) : String × String :=
  let cs := p.toList
  let rtail := cs.reverse.takeWhile (fun c => c ≠ '/')
  let tail := rtail.reverse
  if tail.length = cs.length then ("", p)
  else
    let head := cs.take (cs.length - tail.length)
    let head' :=
      if head.all (fun c => c = '/') then head
      else (head.reverse.dropWhile (fun c => c = '/')).reverse
    (String.mk head', String.mk tail)

/-- Model of `os.path.basename`. -/
def basenameStr (p : String) : String := (ospathSplit p).2

/-- Model of `os.path.dirname`. -/
def dirnameStr (p : String) : String := (ospathSplit p).1

/-- Model of `os.path.splitext` on a basename: split at the last dot unless every
character before it is a dot. -/
def splitextStr (p : String) : String × String :=
  let cs := p.toList
  let rext := cs.reverse.takeWhile (fun c => c ≠ '.')
  if rext.length = cs.length then (p, "")
  else
    let stemLen := cs.length - rext.length - 1
    let stem := cs.take stemLen
    if stem.all (fun c => c = '.') then (p, "")
    else (String.mk stem, String.mk (cs.drop stemLen))

/-- Model of `os.path.join(d, b)` for the shapes reachable from this code: an
absolute second argument wins; otherwise a single slash is inserted
unless the first part is empty or already ends with a slash. -/
def ospathJoin (d b : String) : String :=
  if b.toList.take 1 = ['/'] then b
  else if d = "" then b
  else if d.toList.getLast? = some '/' then d ++ b
  else d ++ "/" ++ b

/-- The property `FileDescriptor.name`: `os.path.basename(self.path)`. -/
def FileDescriptor.name (fd : FileDescriptor) : String :=
  basenameStr fd.path

/-- Python truthiness of an optional string: `None` and `""` are falsy. -/
def strTruthy : Option String → Bool
  | none => false
  | some s => s ≠ ""

/-- Python `a or b` on two optional strings (`dict.get` results):
falls through on `None` or `""`. -/
def pyOrStr (a b : Option String) : Option String :=
  if strTruthy a then a else b

/-! ### `strptime` models -/

/-- Gregorian leap year, as validated by `datetime`. -/
def isLeap (y : Nat) : Bool :=
  (y % 4 = 0 ∧ y % 100 ≠ 0) ∨ y % 400 = 0

/-- Days in a month, as validated by `datetime`. -/
def daysInMonth (y m : Nat) : Nat :=
  if m = 2 then (if isLeap y then 29 else 28)
  else if m = 4 ∨ m = 6 ∨ m = 9 ∨ m = 11 then 30
  else 31

/-- Field of a `strptime` match: nonempty digit string of at most `w`
digits whose value is in `[lo, hi]`. -/
def timeField? (w lo hi : Nat) (l : List Char) : Option Nat :=
  match chDigits? l with
  | some n => if l.length ≤ w ∧ lo ≤ n ∧ n ≤ hi then some n else none
  | none => none

/-- Model of `datetime.strptime(s, "%Y:%m:%d %H:%M:%S")` — the image EXIF format.
`%Y` is exactly four digits; month/day/hour/minute/second are one or two
digits in range, day validated against the calendar; `none` models the
`ValueError` strptime raises on a mismatch. -/
def parseImageDT (s : String) : Option DTime :=
  match chSplit ' ' s.toList with
  | [d, t] =>
    match chSplit ':' d, chSplit ':' t with
    | [ys, ms, ds], [hs, mins, ss] =>
      match chDigits? ys, timeField? 2 1 12 ms, timeField? 2 1 31 ds,
            timeField? 2 0 23 hs, timeField? 2 0 59 mins, timeField? 2 0 59 ss with
      | some y, some m, some dd, some h, some mi, some sec =>
        if ys.length = 4 ∧ 1 ≤ y ∧ dd ≤ daysInMonth y m then
          some ⟨y, m, dd, h, mi, sec, 0⟩
        else none
      | _, _, _, _, _, _ => none
    | _, _ => none
  | _ => none

/-- Model of `datetime.strptime(s, "%Y-%m-%dT%H:%M:%S.%fZ")` — the video
`creation_time` format.  `%f` is one to six digits, scaled to
microseconds. -/
def parseVideoDT (s : String) : Option DTime :=
  let cs := s.toList
  if cs.getLast? = some 'Z' then
    match chSplit 'T' cs.dropLast with
    | [d, t] =>
      match chSplit '-' d, chSplit '.' t with
      | [ys, ms, ds], [hms, fs] =>
        match chSplit ':' hms with
        | [hs, mins, ss] =>
          match chDigits? ys, timeField? 2 1 12 ms, timeField? 2 1 31 ds,
                timeField? 2 0 23 hs, timeField? 2 0 59 mins, timeField? 2 0 59 ss,
                chDigits? fs with
          | some y, some m, some dd, some h, some mi, some sec, some f =>
            if ys.length = 4 ∧ 1 ≤ y ∧ dd ≤ daysInMonth y m ∧ 1 ≤ fs.length ∧ fs.length ≤ 6 then
              some ⟨y, m, dd, h, mi, sec, f * 10 ^ (6 - fs.length)⟩
            else none
          | _, _, _, _, _, _, _ => none
        | _ => none
      | _, _ => none
    | _ => none
  else none

/-! ### `datetime_from_path` and `record_time` -/

/-- Is this path component exactly a year `19\d{2}|20\d{2}`? -/
def isYearComp (l : List Char) : Bool :=
  l.length == 4 && l.all Char.isDigit &&
    (match chDigits? l with
     | some n => decide (1900 ≤ n ∧ n ≤ 2099)
     | none => false)

/-- Is this path component exactly two digits (`\d{2}`)? -/
def isTwoDigitComp (l : List Char) : Bool :=
  l.length == 2 && l.all Char.isDigit

/-- Model of `datetime_from_path` (identical in `mediasort.py` and `dedup.py`):
`re.search(r".*/(19\d{2}|20\d{2})/(\d{2}/)?", path)`.  The greedy leading
`.*` selects the last slash-delimited occurrence of a year component
followed by a slash; the optional month group matches when the next
component is exactly two digits also followed by a slash, else the month
defaults to 1.  `int` of a two-digit month can produce 0 or 13–99, in
which case `datetime(year, month, 1)` raises `ValueError`. -/
def datetime_from_path (path : String) : Except PyErr (Option DTime) :=
  let comps := chSplit '/' path.toList
  let n := comps.length
  let candidates := (List.range n).filter
    (fun i => i + 1 < n ∧ isYearComp (comps.getD i []))
  match candidates.getLast? with
  | none => .ok none
  | some i =>
    let year := digitsVal (comps.getD i [])
    let month :=
      if i + 2 < n ∧ isTwoDigitComp (comps.getD (i + 1) []) then
        digitsVal (comps.getD (i + 1) [])
      else 1
    if 1 ≤ month ∧ month ≤ 12 then .ok (some ⟨year, month, 1, 0, 0, 0, 0⟩)
    else .error PyErr.valueError

/-- Model of `FileDescriptor.record_time` (textually identical in `mediasort.py`
and `dedup.py`): path-derived time first; then the zero-size bailout;
then the type-specific metadata timestamp.  `self.meta` for an image or
video descriptor of nonzero size is exactly the external extractor result
(`metaResult`); the zero-size branch returns before any metadata access,
so the two files' differing `meta` memoization does not matter here. -/
def FileDescriptor.record_time (fd : FileDescriptor) : Except PyErr (Option DTime) := do
  match ← datetime_from_path fd.path with
  | some dt => return some dt
  | none =>
    if fd.size = 0 then return none
    else
      match fd.typ with
      | MType.image => do
        let m ← fd.metaResult
        let dts := pyOrStr m.dateTimeOriginal m.dateTime
        if strTruthy dts then
          match parseImageDT (dts.getD "") with
          | some d => return some d
          | none => throw PyErr.valueError
        else return none
      | MType.video => do
        let m ← fd.metaResult
        match m.creationTime with
        | some tag =>
          if tag ≠ "" ∧ ¬ (tag.toList.take 4 = ['1', '9', '7', '0']) then
            match parseVideoDT tag with
            | some d => return some d
            | none => throw PyErr.valueError
          else return none
        | none => return none
      | MType.other => return none

example :
    FileDescriptor.record_time ⟨"/a/2010/05/x.jpg", 1, "h", MType.image, .ok emptyMeta⟩
      = .ok (some ⟨2010, 5, 1, 0, 0, 0, 0⟩) := by decide

example :
    FileDescriptor.record_time
        ⟨"/pics/a.jpg", 1, "h", MType.image,
          .ok ⟨some "2020:05:01 10:00:00", none, none⟩⟩
      = .ok (some ⟨2020, 5, 1, 10, 0, 0, 0⟩) := by decide

example :
    FileDescriptor.record_time ⟨"/a/2010/xy/x.jpg", 0, "h", MType.image, .ok emptyMeta⟩
      = .ok (some ⟨2010, 1, 1, 0, 0, 0, 0⟩) := by decide

example :
    FileDescriptor.record_time ⟨"/a/b/x.jpg", 0, "h", MType.image, .ok emptyMeta⟩
      = .ok none := by decide

example :
    FileDescriptor.record_time
        ⟨"/v/clip.mp4", 7, "h", MType.video,
          .ok ⟨none, none, some "1970-01-01T00:00:00.000000Z"⟩⟩
      = .ok none := by decide

example :
    FileDescriptor.record_time
        ⟨"/v/clip.mp4", 7, "h", MType.video,
          .ok ⟨none, none, some "2019-07-04T12:30:00.500000Z"⟩⟩
      = .ok (some ⟨2019, 7, 4, 12, 30, 0, 500000⟩) := by decide

/-! ### Pairwise same-item predicates -/

/-- Model of `mediasort.FileDescriptor.is_same`: both record times are computed
(absent replaced by the `datetime(1, 1, 1)` sentinel) and the descriptors
are the same item iff the hashes agree and the times agree at year+month
granularity.  Both `record_time` computations run before the comparison,
so an exception in either propagates. -/
def Mediasort.is_same (a b : FileDescriptor) : Except PyErr Bool := do
  let sdt := (← a.record_time).getD dtSentinel
  let odt := (← b.record_time).getD dtSentinel
  return a.hash = b.hash ∧ sdt.year = odt.year ∧ sdt.month = odt.month

/-- Model of `dedup._same_file`: same hash and *exactly* equal record times
(`fd1.record_time == fd2.record_time`, with `None == None` true).  The
Python `and` short-circuits, so record times are not computed when the
hashes differ. -/
def Dedup._same_file (a b : FileDescriptor) : Except PyErr Bool := do
  if a.hash = b.hash then
    let t1 ← a.record_time
    let t2 ← b.record_time
    return t1 = t2
  else
    return false

/-! ### `album` -/

/-- Does the parent-directory basename match `^[0-9\-\._ ]+$`? -/
def dateLikeAlbum (s : String) : Bool :=
  s.toList ≠ [] && s.toList.all
    (fun c => c.isDigit || c = '-' || c = '.' || c = '_' || c = ' ')

/-- Model of `FileDescriptor.album` (identical in both files): the basename of the
parent directory, unless it matches the numeric/date-like token pattern,
in which case `None`. -/
def FileDescriptor.album (fd : FileDescriptor) : Option String :=
  let a := basenameStr (dirnameStr fd.path)
  if dateLikeAlbum a then none else some a

/-! ### `find_issues` -/

/-- The mutable state of the `find_issues` loop: the `hashes` dict from
fingerprint to first-seen representative, and the three output lists, in
the order the source initializes them. -/
structure IssuesState where
  hashes : List (String × FileDescriptor)
  collisions : List (FileDescriptor × FileDescriptor)
  duplicates : List (FileDescriptor × FileDescriptor)
  empty : List FileDescriptor
deriving DecidableEq, Repr

/-- First-match lookup in an association list (Python dict lookup; keys
are unique by construction here). -/
def alookup (m : List (String × FileDescriptor)) (k : String) : Option FileDescriptor :=
  match m.find? (fun p => p.1 = k) with
  | some p => some p.2
  | none => none

/-- The `find_issues` loop common to `mediasort.py` and `dedup.py`; the
two files differ only in the pairwise predicate (`is_same` vs
`_same_file`), passed here as `same`.  Size-0 descriptors go to `empty`
without touching the fingerprint logic; the first descriptor of a
fingerprint becomes its representative; later ones are paired with the
representative as a duplicate or a collision.  An exception from the
predicate aborts the loop (propagates). -/
def findIssuesAux (same : FileDescriptor → FileDescriptor → Except PyErr Bool) :
    List FileDescriptor → IssuesState → Except PyErr IssuesState
  | [], st => .ok st
  | fd :: rest, st =>
    if fd.size = 0 then
      findIssuesAux same rest { st with empty := st.empty ++ [fd] }
    else
      match alookup st.hashes fd.hash with
      | some existing_fd => do
        let b ← same existing_fd fd
        if b then
          findIssuesAux same rest { st with duplicates := st.duplicates ++ [(existing_fd, fd)] }
        else
          findIssuesAux same rest { st with collisions := st.collisions ++ [(existing_fd, fd)] }
      | none =>
        findIssuesAux same rest { st with hashes := st.hashes ++ [(fd.hash, fd)] }

/-- Run `find_issues` from the empty state. -/
def findIssuesRun (same : FileDescriptor → FileDescriptor → Except PyErr Bool)
    (index : List FileDescriptor) : Except PyErr IssuesState :=
  findIssuesAux same index ⟨[], [], [], []⟩

/-- Model of `mediasort.find_issues`. -/
def Mediasort.find_issues (index : List FileDescriptor) : Except PyErr IssuesState :=
  findIssuesRun Mediasort.is_same index

/-- Model of `dedup.find_issues`. -/
def Dedup.find_issues (index : List FileDescriptor) : Except PyErr IssuesState :=
  findIssuesRun Dedup._same_file index

/-! ### The persistent `Index` (mediasort.py) -/

/-- Observable state of a `mediasort.Index`: the `items` list, the two
`defaultdict` lookup structures (modelled as association lists from key
to bucket, read through a total default-`[]` getter), and the content of
the backing cache file as the list of appended lines. -/
structure Index where
  items : List FileDescriptor
  hashes : List (String × List FileDescriptor)
  paths : List (String × List FileDescriptor)
  log : List String
deriving DecidableEq, Repr

/-- The `defaultdict` read: the bucket for `k`, `[]` when absent. -/
def dget (m : List (String × List FileDescriptor)) (k : String) : List FileDescriptor :=
  match m.find? (fun p => p.1 = k) with
  | some p => p.2
  | none => []

/-- The `defaultdict` append: `m[k].append(v)` — extend the bucket in place,
creating it when absent. -/
def dappend (m : List (String × List FileDescriptor)) (k : String) (v : FileDescriptor) :
    List (String × List FileDescriptor) :=
  match m with
  | [] => [(k, [v])]
  | (k', b) :: rest => if k' = k then (k', b ++ [v]) :: rest else (k', b) :: dappend rest k v

/-- The empty index (no cache file found on construction). -/
def Index.empty : Index := ⟨[], [], [], []⟩

/-- Result of `Index.add`: either a normal return carrying the returned
boolean and the post-state, or a raised exception — which, because the
Python object is mutated in place *before* the cache write, still carries
the post-state visible to anyone catching the exception. -/
inductive AddResult where
  | ok (added : Bool) (idx : Index)
  | err (e : PyErr) (idx : Index)
deriving DecidableEq, Repr

/-- The state carried by an `AddResult`. -/
def AddResult.state : AddResult → Index
  | .ok _ idx => idx
  | .err _ idx => idx

/-- Model of `mediasort.Index.add`, with `ser` the `json.dumps(fd.__dict__)`
serialization oracle (its `Except` models a possible `TypeError` on an
unrepresentable metadata value).  If the fingerprint bucket already holds
a descriptor with the exact same path, nothing changes and `False` is
returned.  Otherwise the three in-memory structures are extended first;
then the serialized record is appended to the cache file — a
serialization failure therefore leaves the in-memory addition in place
while the exception propagates and the log line is never written. -/
def Index.add (ser : FileDescriptor → Except PyErr String) (idx : Index)
    (fd : FileDescriptor) : AddResult :=
  let existing := dget idx.hashes fd.hash
  if existing ≠ [] ∧ fd.path ∈ existing.map FileDescriptor.path then
    .ok false idx
  else
    let idx' : Index :=
      { items := idx.items ++ [fd]
        hashes := dappend idx.hashes fd.hash fd
        paths := dappend idx.paths fd.path fd
        log := idx.log }
    match ser fd with
    | .ok line => .ok true { idx' with log := idx.log ++ [line] }
    | .error e => .err e idx'

example :
    (Index.add (fun _ => .ok "rec") Index.empty
        ⟨"/a/x.jpg", 3, "h", MType.image, .ok emptyMeta⟩) =
      .ok true ⟨[⟨"/a/x.jpg", 3, "h", MType.image, .ok emptyMeta⟩],
        [("h", [⟨"/a/x.jpg", 3, "h", MType.image, .ok emptyMeta⟩])],
        [("/a/x.jpg", [⟨"/a/x.jpg", 3, "h", MType.image, .ok emptyMeta⟩])],
        ["rec"]⟩ := by decide

/-! ### `maybe_increment_path` (identical in both files) -/

/-- The regex `^(.*?)\s*\((\d+)\)$` applied to a filename stem: a final
`"(digits)"` group (necessarily at the last opening parenthesis of the
string), preceded by a base from which trailing whitespace is stripped.
Returns the base and the numeric value of the digits. -/
def parseIncrSuffix (name : String) : Option (String × Nat) :=
  let cs := name.toList
  match cs.getLast? with
  | some ')' =>
    let body := cs.dropLast
    let rdigits := body.reverse.takeWhile Char.isDigit
    if rdigits = [] then none
    else
      let pre := body.take (body.length - rdigits.length)
      match pre.getLast? with
      | some '(' =>
        let base := ((pre.dropLast).reverse.dropWhile pyIsSpace).reverse
        some (String.mk base, digitsVal rdigits.reverse)
      | _ => none
  | _ => none

/-- Model of `maybe_increment_path`, with `onDisk` the `os.path.exists` oracle.  A
path that does not exist is returned unchanged; otherwise the stem's
trailing `" (N)"` suffix is incremented (or `" (1)"` appended) and the
new candidate is returned — with no further existence check. -/
def maybe_increment_path (onDisk : String → Bool) (path : String) : String :=
  if ¬ onDisk path then path
  else
    let dirname := (ospathSplit path).1
    let basename := (ospathSplit path).2
    let name := (splitextStr basename).1
    let ext := (splitextStr basename).2
    let new_name :=
      match parseIncrSuffix name with
      | some (base, index) => base ++ " (" ++ toString (index + 1) ++ ")"
      | none => name ++ " (1)"
    ospathJoin dirname (new_name ++ ext)

example :
    maybe_increment_path (fun p => p = "/d/IMG.JPG") "/d/IMG.JPG" = "/d/IMG (1).JPG" := by
  decide

example :
    maybe_increment_path (fun p => p = "/d/IMG (1).JPG") "/d/IMG (1).JPG"
      = "/d/IMG (2).JPG" := by decide

example : maybe_increment_path (fun _ => false) "/d/IMG.JPG" = "/d/IMG.JPG" := by decide

/-! ### `copy_with_retry` (identical in both files) -/

/-- The `while n_retries > 0 and not success` loop of `copy_with_retry`,
with `attempt i` the outcome of the `shutil.copy` call on the i-th try
(`true` = no exception).  Returns whether a try succeeded together with
the number of tries actually made. -/
def copyLoop (attempt : Nat → Bool) : Nat → Nat → Bool × Nat
  | 0, _ => (false, 0)
  | Nat.succ k, i =>
    if attempt i then (true, 1)
    else
      let r := copyLoop attempt k (i + 1)
      (r.1, r.2 + 1)

/-- Model of `copy_with_retry(src, dst, n_retries)`: on success returns the number
of tries consumed; after exhausting the budget it raises
`ValueError(f"Failed to copy {src} -> {dst} after 10 retries")` (the
message hard-codes 10). -/
def copy_with_retry (attempt : Nat → Bool) (src dst : String) (n_retries : Nat) :
    Except String Nat :=
  let r := copyLoop attempt n_retries 0
  if r.1 then .ok r.2
  else .error ("Failed to copy " ++ src ++ " -> " ++ dst ++ " after 10 retries")

/-- Fixed delay, in seconds, slept between attempts (`time.sleep(3)`). -/
def retryDelaySeconds : Nat := 3

/-! ### The copy decision of `mediasort.reorganize` -/

/-- Python `fd.album or str(dt.month)`. -/
def albumOrMonth (fd : FileDescriptor) (month : Nat) : String :=
  match fd.album with
  | some s => if s = "" then toString month else s
  | none => toString month

/-- The `base_out_path` computed by the copy loop of
`mediasort.reorganize` (lines 326–332): dated items go to
`dest/<year>/<album-or-month>/<name>`, undated ones to
`dest/(no-date)/<album/?>/<name>` (the f-string inserts a second slash
after the album segment exactly as the source does). -/
def base_out_path (dest : String) (fd : FileDescriptor) (dt : Option DTime) : String :=
  match dt with
  | some d => dest ++ "/" ++ toString d.year ++ "/" ++ albumOrMonth fd d.month ++ "/" ++ fd.name
  | none =>
    let maybe_album := match fd.album with
      | some s => if s = "" then "" else s ++ "/"
      | none => ""
    dest ++ "/(no-date)/" ++ maybe_album ++ "/" ++ fd.name

/-- The `dest_hash2path` dict comprehension
`{fd.hash: fd.path for fd in dest_index}` — the *last* descriptor with a
given hash wins. -/
def dest_hash2path (dest_index : List FileDescriptor) (h : String) : Option String :=
  match (dest_index.filter (fun fd => fd.hash = h)).getLast? with
  | some fd => some fd.path
  | none => none

/-- One iteration of the copy loop of `mediasort.reorganize` for a source
descriptor `fd`: the three skip gates (zero size, recorded duplicate
path, non-media type), then the planned `base_out_path` from
`record_time` (whose exceptions propagate), the single
`maybe_increment_path` step, and the skip test
`fd.hash in dest_hash2path and base_out_path == dest_hash2path[fd.hash]`.
Returns `none` when the item is skipped and `some out_path` when the copy
to `out_path` is performed. -/
def reorganize_item (onDisk : String → Bool) (duplicates : List String)
    (h2p : String → Option String) (dest : String) (fd : FileDescriptor) :
    Except PyErr (Option String) := do
  if fd.size = 0 then return none
  else if fd.path ∈ duplicates then return none
  else if fd.typ ≠ MType.image ∧ fd.typ ≠ MType.video then return none
  else
    let dt ← fd.record_time
    let base := base_out_path dest fd dt
    let out := maybe_increment_path onDisk base
    match h2p fd.hash with
    | some p => if base = p then return none else return (some out)
    | none => return (some out)

/-! ### `dedup.py` metadata guards -/

/-- Model of `dedup.FileDescriptor.image_meta`: `None` for non-images, the empty
dict for zero-size images (the external extractor is not consulted), and
the extractor result otherwise. -/
def Dedup.image_meta (fd : FileDescriptor) : Except PyErr (Option MetaDict) :=
  if fd.typ ≠ MType.image then .ok none
  else if fd.size = 0 then .ok (some emptyMeta)
  else fd.metaResult.map some

/-- Model of `dedup.FileDescriptor.video_meta`: the same with video in place of
image. -/
def Dedup.video_meta (fd : FileDescriptor) : Except PyErr (Option MetaDict) :=
  if fd.typ ≠ MType.video then .ok none
  else if fd.size = 0 then .ok (some emptyMeta)
  else fd.metaResult.map some

/-- Model of `dedup.FileDescriptor.meta`: dispatch on the type. -/
def Dedup.meta (fd : FileDescriptor) : Except PyErr (Option MetaDict) :=
  match fd.typ with
  | MType.image => Dedup.image_meta fd
  | MType.video => Dedup.video_meta fd
  | MType.other => .ok none

/-- Model of `mediasort.FileDescriptor.meta`: the memoized property consults the
type-specific external extractor with *no* zero-size guard; for `other`
the field stays `None`. -/
def Mediasort.meta (fd : FileDescriptor) : Except PyErr (Option MetaDict) :=
  match fd.typ with
  | MType.image => fd.metaResult.map some
  | MType.video => fd.metaResult.map some
  | MType.other => .ok none

/-! ### Name resolution in `mediasort.reorganize` -/

/-- The names bound at module level in `mediasort.py`: the sixteen
imported names followed by the module's own `def`s, classes and the
`logger` binding, in source order. -/
def mediasortModuleNames : List String :=
  ["os", "re", "time", "json", "hashlib", "ffmpeg", "mimetypes", "shutil",
   "logging", "dataclass", "defaultdict", "Path", "datetime", "tqdm",
   "Image", "ExifTags",
   "get_logger", "logger", "file_type", "image_metadata", "video_metadata",
   "datetime_from_path", "FileDescriptor", "find_issues",
   "CollisionException", "Index", "test_index", "maybe_increment_path",
   "copy_with_retry", "reorganize", "main"]

/-- The module-level (non-builtin) callables that `mediasort.reorganize`
invokes, in execution order: `build_index(root)` once per source root,
then `find_issues(index)`, then `build_index(dest)`, and only after that
the copy phase with `maybe_increment_path` and `copy_with_retry` (their
later repetitions are elided — only the first occurrence matters for
name resolution). -/
def reorganizeModuleCalls (srcRoots : List String) : List String :=
  srcRoots.map (fun _ => "build_index") ++
    ["find_issues", "build_index", "maybe_increment_path", "copy_with_retry"]

/-- Execute a call sequence under Python name resolution against the
module's global names: each name is resolved at call time; the first name
that does not resolve raises `NameError`, ending execution.  Returns the
calls actually executed and the raised error, if any. -/
def runCalls (globalNames : List String) : List String → List String × Option PyErr
  | [] => ([], none)
  | c :: rest =>
    if c ∈ globalNames then
      let r := runCalls globalNames rest
      (c :: r.1, r.2)
    else ([], some (PyErr.nameError c))

example :
    runCalls mediasortModuleNames (reorganizeModuleCalls ["/backup"])
      = ([], some (PyErr.nameError "build_index")) := by decide

example :
    runCalls mediasortModuleNames (reorganizeModuleCalls [])
      = (["find_issues"], some (PyErr.nameError "build_index")) := by decide

/-- The metadata branch of `record_time` in isolation: the type-specific
capture timestamp — image EXIF `DateTimeOriginal` falling back to
`DateTime`, video `creation_time` unless it starts with `"1970"` — used
to state the resolution-order theorem. -/
def metadata_time (fd : FileDescriptor) : Except PyErr (Option DTime) :=
  match fd.typ with
  | MType.image => do
    let m ← fd.metaResult
    let dts := pyOrStr m.dateTimeOriginal m.dateTime
    if strTruthy dts then
      match parseImageDT (dts.getD "") with
      | some d => return some d
      | none => throw PyErr.valueError
    else return none
  | MType.video => do
    let m ← fd.metaResult
    match m.creationTime with
    | some tag =>
      if tag ≠ "" ∧ ¬ (tag.toList.take 4 = ['1', '9', '7', '0']) then
        match parseVideoDT tag with
        | some d => return some d
        | none => throw PyErr.valueError
      else return none
    | none => return none
  | MType.other => .ok none

/-- The items accounted for by a `find_issues` result, as one list:
empty files, the second components of duplicate pairs, the second
components of collision pairs, and the per-fingerprint representatives. -/
def issuesMultiset (st : IssuesState) : List FileDescriptor :=
  st.empty ++ st.duplicates.map Prod.snd ++ st.collisions.map Prod.snd ++
    st.hashes.map Prod.snd

/-! ## Theorems -/

/-- Helper: `dget` after `dappend` on the same key sees the old bucket
extended by the new value. -/
theorem dget_dappend_self (m : List (String × List FileDescriptor)) (k : String)
    (v : FileDescriptor) : dget (dappend m k v) k = dget m k ++ [v] := by
  induction m with
  | nil => simp [dget, dappend]
  | cons hd tl ih =>
    obtain ⟨k', b⟩ := hd
    by_cases hk : k' = k
    · subst hk
      simp [dget, dappend]
    · simpa [dget, dappend, hk] using ih

/-- Helper: when the fingerprint bucket already holds the descriptor's
exact path, `Index.add` is a no-op returning `False`. -/
theorem Index.add_path_hit (ser : FileDescriptor → Except PyErr String) (idx : Index)
    (fd : FileDescriptor)
    (h : fd.path ∈ (dget idx.hashes fd.hash).map FileDescriptor.path) :
    Index.add ser idx fd = .ok false idx := by
  have hne : dget idx.hashes fd.hash ≠ [] := by
    intro he
    rw [he] at h
    simp at h
  rw [Index.add, if_pos ⟨hne, h⟩]

/-- Claim C10: every call to `mediasort.reorganize` raises a `NameError`
before any copy happens, because it invokes `build_index` — a name
neither defined nor imported at module level in `mediasort.py` — before
its first `copy_with_retry`; and `reorganize` never invokes the
persistent `Index` class. -/
theorem C10_reorganize_raises_nameError (srcRoots : List String) :
    "build_index" ∉ mediasortModuleNames ∧
    (runCalls mediasortModuleNames (reorganizeModuleCalls srcRoots)).2
      = some (PyErr.nameError "build_index") ∧
    "copy_with_retry" ∉ (runCalls mediasortModuleNames (reorganizeModuleCalls srcRoots)).1 ∧
    "Index" ∉ reorganizeModuleCalls srcRoots := by
  have hrun : runCalls mediasortModuleNames (reorganizeModuleCalls srcRoots)
      = ([], some (PyErr.nameError "build_index")) ∨
      runCalls mediasortModuleNames (reorganizeModuleCalls srcRoots)
      = (["find_issues"], some (PyErr.nameError "build_index")) := by
    cases srcRoots with
    | nil => right; decide
    | cons s rest =>
      left
      show runCalls mediasortModuleNames
        ("build_index" :: (rest.map (fun _ => "build_index") ++ _)) = _
      rw [runCalls, if_neg (by decide)]
  refine ⟨by decide, ?_, ?_, ?_⟩
  · rcases hrun with h | h <;> rw [h]
  · rcases hrun with h | h <;> rw [h] <;> decide
  · intro hmem
    rw [reorganizeModuleCalls] at hmem
    rcases List.mem_append.mp hmem with h | h
    · rcases List.mem_map.mp h with ⟨x, _, hx⟩
      exact absurd hx (by decide)
    · exact absurd h (by decide)

/-- Helper: if every try within the budget fails, the copy loop makes
exactly the budgeted number of tries and reports failure. -/
theorem copyLoop_all_fail (attempt : Nat → Bool) :
    ∀ (k i : Nat), (∀ d, d < k → attempt (i + d) = false) →
      copyLoop attempt k i = (false, k)
  | 0, _, _ => rfl
  | Nat.succ k, i, h => by
    have h0 : attempt i = false := by simpa using h 0 (Nat.succ_pos k)
    have htail := copyLoop_all_fail attempt k (i + 1) (fun d hd => by
      have := h (d + 1) (Nat.succ_lt_succ hd)
      rwa [Nat.add_comm d 1, ← Nat.add_assoc] at this)
    simp [copyLoop, h0, htail]

/-- Helper: if the first success within the budget is at offset `j`, the
copy loop stops right there, after `j + 1` tries. -/
theorem copyLoop_first_success (attempt : Nat → Bool) :
    ∀ (k i j : Nat), j < k → attempt (i + j) = true →
      (∀ d, d < j → attempt (i + d) = false) →
      copyLoop attempt k i = (true, j + 1)
  | 0, _, j, hj, _, _ => absurd hj (Nat.not_lt_zero j)
  | Nat.succ k, i, 0, _, hatt, _ => by
    have h0 : attempt i = true := by simpa using hatt
    simp [copyLoop, h0]
  | Nat.succ k, i, Nat.succ d, hj, hatt, hmin => by
    have h0 : attempt i = false := by simpa using hmin 0 (Nat.succ_pos d)
    have htail := copyLoop_first_success attempt k (i + 1) d
      (Nat.lt_of_succ_lt_succ hj)
      (by
        have he : i + 1 + d = i + Nat.succ d := by omega
        rw [he]; exact hatt)
      (fun e he => by
        have h2 := hmin (e + 1) (Nat.succ_lt_succ he)
        have he2 : i + 1 + e = i + (e + 1) := by omega
        rw [he2]; exact h2)
    simp [copyLoop, h0, htail]

/-- Claim C8: `copy_with_retry` tries the copy primitive at most the
budgeted number of times (10), with the fixed `retryDelaySeconds` pause
between tries; a first success at offset `j` ends the function normally
after exactly `j + 1` tries; if every try fails it raises a `ValueError`
whose message names both the source and the destination path. -/
theorem C8_copy_with_retry (attempt : Nat → Bool) (src dst : String) :
    (∀ j, j < 10 → attempt j = true → (∀ i, i < j → attempt i = false) →
      copy_with_retry attempt src dst 10 = .ok (j + 1) ∧ j + 1 ≤ 10) ∧
    ((∀ i, i < 10 → attempt i = false) →
      copy_with_retry attempt src dst 10 =
        .error ("Failed to copy " ++ src ++ " -> " ++ dst ++ " after 10 retries")) := by
  constructor
  · intro j hj hatt hmin
    have hl := copyLoop_first_success attempt 10 0 j hj (by simpa using hatt)
      (fun d hd => by simpa using hmin d hd)
    constructor
    · simp [copy_with_retry, hl]
    · omega
  · intro hall
    have hl := copyLoop_all_fail attempt 10 0 (fun d hd => by simpa using hall d hd)
    simp [copy_with_retry, hl]

/-- Witness for C8: a run succeeding on the fourth try, and a run whose
every try fails. -/
theorem C8_copy_with_retry_witness :
    copy_with_retry (fun i => i == 3) "/src/a.jpg" "/dst/a.jpg" 10 = .ok 4 ∧
    copy_with_retry (fun _ => false) "/src/a.jpg" "/dst/a.jpg" 10 =
      .error ("Failed to copy " ++ "/src/a.jpg" ++ " -> " ++ "/dst/a.jpg" ++
        " after 10 retries") := by
  constructor
  · exact ((C8_copy_with_retry (fun i => i == 3) "/src/a.jpg" "/dst/a.jpg").1 3
      (by decide) (by decide) (by decide)).1
  · exact (C8_copy_with_retry (fun _ => false) "/src/a.jpg" "/dst/a.jpg").2
      (fun i _ => rfl)

/-- Claim C5: `Index.add` is idempotent — when the fingerprint bucket
already holds the exact path, it returns `False` and leaves all four
state components untouched; any other descriptor is appended to the
items, both lookup structures and the backing log and `True` is returned
(given the record serializes); and re-adding the same descriptor right
after any `add` is a no-op on the resulting state. -/
theorem C5_index_add_idempotent (ser : FileDescriptor → Except PyErr String)
    (idx : Index) (fd : FileDescriptor) :
    (fd.path ∈ (dget idx.hashes fd.hash).map FileDescriptor.path →
      Index.add ser idx fd = .ok false idx) ∧
    (fd.path ∉ (dget idx.hashes fd.hash).map FileDescriptor.path →
      ∀ line, ser fd = .ok line →
        Index.add ser idx fd = .ok true
          ⟨idx.items ++ [fd], dappend idx.hashes fd.hash fd,
            dappend idx.paths fd.path fd, idx.log ++ [line]⟩) ∧
    Index.add ser (Index.add ser idx fd).state fd
      = .ok false (Index.add ser idx fd).state := by
  refine ⟨fun h => Index.add_path_hit ser idx fd h, fun hmem line hline => ?_, ?_⟩
  · rw [Index.add, if_neg (fun hc => hmem hc.2), hline]
  · by_cases hmem : fd.path ∈ (dget idx.hashes fd.hash).map FileDescriptor.path
    · have h1 := Index.add_path_hit ser idx fd hmem
      rw [h1]
      exact Index.add_path_hit ser idx fd hmem
    · have hstate : (Index.add ser idx fd).state.hashes
          = dappend idx.hashes fd.hash fd := by
        rw [Index.add, if_neg (fun hc => hmem hc.2)]
        cases hs : ser fd <;> rfl
      refine Index.add_path_hit ser (Index.add ser idx fd).state fd ?_
      rw [hstate, dget_dappend_self]
      simp

/-- Witness for C5: a fresh add into the empty index is accepted and
recorded; adding the same descriptor again is a no-op on that state. -/
theorem C5_index_add_idempotent_witness :
    Index.add (fun _ => .ok "rec") Index.empty
        ⟨"/a/x.jpg", 3, "h", MType.image, .ok emptyMeta⟩
      = .ok true ⟨[⟨"/a/x.jpg", 3, "h", MType.image, .ok emptyMeta⟩],
          [("h", [⟨"/a/x.jpg", 3, "h", MType.image, .ok emptyMeta⟩])],
          [("/a/x.jpg", [⟨"/a/x.jpg", 3, "h", MType.image, .ok emptyMeta⟩])],
          ["rec"]⟩ ∧
    Index.add (fun _ => .ok "rec")
        ⟨[⟨"/a/x.jpg", 3, "h", MType.image, .ok emptyMeta⟩],
          [("h", [⟨"/a/x.jpg", 3, "h", MType.image, .ok emptyMeta⟩])],
          [("/a/x.jpg", [⟨"/a/x.jpg", 3, "h", MType.image, .ok emptyMeta⟩])],
          ["rec"]⟩
        ⟨"/a/x.jpg", 3, "h", MType.image, .ok emptyMeta⟩
      = .ok false ⟨[⟨"/a/x.jpg", 3, "h", MType.image, .ok emptyMeta⟩],
          [("h", [⟨"/a/x.jpg", 3, "h", MType.image, .ok emptyMeta⟩])],
          [("/a/x.jpg", [⟨"/a/x.jpg", 3, "h", MType.image, .ok emptyMeta⟩])],
          ["rec"]⟩ := by
  constructor
  · exact ((C5_index_add_idempotent (fun _ => .ok "rec") Index.empty
      ⟨"/a/x.jpg", 3, "h", MType.image, .ok emptyMeta⟩).2.1
        (by decide) "rec" rfl).trans (by decide)
  · exact ((C5_index_add_idempotent (fun _ => .ok "rec")
      ⟨[⟨"/a/x.jpg", 3, "h", MType.image, .ok emptyMeta⟩],
        [("h", [⟨"/a/x.jpg", 3, "h", MType.image, .ok emptyMeta⟩])],
        [("/a/x.jpg", [⟨"/a/x.jpg", 3, "h", MType.image, .ok emptyMeta⟩])],
        ["rec"]⟩
      ⟨"/a/x.jpg", 3, "h", MType.image, .ok emptyMeta⟩).1 (by decide))

/-- Counterexample to C9 as stated: a serialization failure in
`Index.add` is not downgraded to a logged warning — it propagates as a
raised exception (while the in-memory structures were already extended
and the backing log was not). -/
theorem C9_counterexample :
    Index.add (fun _ => .error (PyErr.extFailure "bytes")) Index.empty
        ⟨"/a/x.jpg", 3, "h", MType.image, .ok emptyMeta⟩
      = .err (PyErr.extFailure "bytes")
          ⟨[⟨"/a/x.jpg", 3, "h", MType.image, .ok emptyMeta⟩],
            [("h", [⟨"/a/x.jpg", 3, "h", MType.image, .ok emptyMeta⟩])],
            [("/a/x.jpg", [⟨"/a/x.jpg", 3, "h", MType.image, .ok emptyMeta⟩])],
            []⟩ := by decide

/-- Claim C9 (amended): a serialization failure during `Index.add` does
not lose the in-memory addition — the items list and both lookup
structures are extended before the write is attempted, so the entry
remains queryable in the fingerprint bucket — but the exception
propagates to the caller (nothing is caught or logged) and the backing
log is left unchanged. -/
theorem C9_serialization_failure (ser : FileDescriptor → Except PyErr String)
    (idx : Index) (fd : FileDescriptor) (e : PyErr)
    (hmem : fd.path ∉ (dget idx.hashes fd.hash).map FileDescriptor.path)
    (hser : ser fd = .error e) :
    Index.add ser idx fd =
      .err e ⟨idx.items ++ [fd], dappend idx.hashes fd.hash fd,
        dappend idx.paths fd.path fd, idx.log⟩ ∧
    fd ∈ dget (dappend idx.hashes fd.hash fd) fd.hash ∧
    (Index.add ser idx fd).state.log = idx.log := by
  have hadd : Index.add ser idx fd =
      .err e ⟨idx.items ++ [fd], dappend idx.hashes fd.hash fd,
        dappend idx.paths fd.path fd, idx.log⟩ := by
    rw [Index.add, if_neg (fun hc => hmem hc.2), hser]
  refine ⟨hadd, ?_, by rw [hadd]; rfl⟩
  rw [dget_dappend_self]
  simp

/-- Witness for C9 (amended), at a concrete descriptor whose metadata
cannot be serialized. -/
theorem C9_serialization_failure_witness :
    Index.add (fun _ => .error (PyErr.extFailure "IFD")) Index.empty
        ⟨"/b/y.jpg", 5, "k", MType.image, .ok emptyMeta⟩
      = .err (PyErr.extFailure "IFD")
          ⟨[⟨"/b/y.jpg", 5, "k", MType.image, .ok emptyMeta⟩],
            [("k", [⟨"/b/y.jpg", 5, "k", MType.image, .ok emptyMeta⟩])],
            [("/b/y.jpg", [⟨"/b/y.jpg", 5, "k", MType.image, .ok emptyMeta⟩])],
            []⟩ ∧
    ⟨"/b/y.jpg", 5, "k", MType.image, .ok emptyMeta⟩ ∈
      dget (dappend Index.empty.hashes "k"
        ⟨"/b/y.jpg", 5, "k", MType.image, .ok emptyMeta⟩) "k" := by
  have h := C9_serialization_failure (fun _ => .error (PyErr.extFailure "IFD"))
    Index.empty ⟨"/b/y.jpg", 5, "k", MType.image, .ok emptyMeta⟩
    (PyErr.extFailure "IFD") (by decide) rfl
  exact ⟨(h.1).trans (by decide), h.2.1⟩

/-- Counterexample to C6 as stated: with both `IMG.JPG` and
`IMG (1).JPG` on disk, resolving the planned path `IMG.JPG` returns
`IMG (1).JPG`, a path that itself exists on disk — the suffix already
present is reused and no re-planning happens. -/
theorem C6_counterexample :
    maybe_increment_path
        (fun p => p == "/d/IMG.JPG" || p == "/d/IMG (1).JPG") "/d/IMG.JPG"
      = "/d/IMG (1).JPG" ∧
    (fun p => p == "/d/IMG.JPG" || p == "/d/IMG (1).JPG") "/d/IMG (1).JPG"
      = true := by decide

/-- Claim C6 (amended): `maybe_increment_path` performs a single step: a
planned path not on disk is returned unchanged; a planned path on disk
has the trailing `" (N)"` suffix of its stem incremented to
`" (N+1)"` — or `" (1)"` appended when there is none — and the new
candidate is returned without any further existence check (so it may
itself exist on disk). -/
theorem C6_maybe_increment_single_step (onDisk : String → Bool) (path : String) :
    (onDisk path = false → maybe_increment_path onDisk path = path) ∧
    (onDisk path = true →
      ∀ base n, parseIncrSuffix (splitextStr (ospathSplit path).2).1 = some (base, n) →
        maybe_increment_path onDisk path =
          ospathJoin (ospathSplit path).1
            (base ++ " (" ++ toString (n + 1) ++ ")" ++
              (splitextStr (ospathSplit path).2).2)) ∧
    (onDisk path = true →
      parseIncrSuffix (splitextStr (ospathSplit path).2).1 = none →
        maybe_increment_path onDisk path =
          ospathJoin (ospathSplit path).1
            ((splitextStr (ospathSplit path).2).1 ++ " (1)" ++
              (splitextStr (ospathSplit path).2).2)) := by
  refine ⟨fun h => ?_, fun h base n hp => ?_, fun h hp => ?_⟩
  · simp [maybe_increment_path, h]
  · simp [maybe_increment_path, h, hp]
  · simp [maybe_increment_path, h, hp]

/-- Witness for C6 (amended): the three concrete behaviors — untouched
when absent from disk, `" (1)"` appended, `" (1)"` incremented to
`" (2)"`. -/
theorem C6_maybe_increment_single_step_witness :
    maybe_increment_path (fun _ => false) "/d/IMG.JPG" = "/d/IMG.JPG" ∧
    maybe_increment_path (fun _ => true) "/d/IMG.JPG" = "/d/IMG (1).JPG" ∧
    maybe_increment_path (fun _ => true) "/d/IMG (1).JPG" = "/d/IMG (2).JPG" := by
  refine ⟨(C6_maybe_increment_single_step (fun _ => false) "/d/IMG.JPG").1 rfl, ?_, ?_⟩
  · exact ((C6_maybe_increment_single_step (fun _ => true) "/d/IMG.JPG").2.2 rfl
      (by decide)).trans (by decide)
  · exact ((C6_maybe_increment_single_step (fun _ => true) "/d/IMG (1).JPG").2.1 rfl
      "IMG" 1 (by decide)).trans (by decide)

/-- Counterexample to C4 as stated: a zero-size descriptor whose path
matches the `.../<YYYY>/<MM>/...` convention does yield a record time. -/
theorem C4_counterexample :
    (⟨"/a/2010/05/x.jpg", 0, "h", MType.image, .ok emptyMeta⟩ : FileDescriptor).size
      = 0 ∧
    FileDescriptor.record_time ⟨"/a/2010/05/x.jpg", 0, "h", MType.image, .ok emptyMeta⟩
      = .ok (some ⟨2010, 5, 1, 0, 0, 0, 0⟩) := by decide

/-- Claim C4 (amended): for a zero-size descriptor `record_time` is
exactly the path-derived result — absent only when the path does not
match the dated-directory convention — and the metadata branch is never
consulted; in `dedup.py` the memoized metadata of a zero-size image or
video descriptor is the empty mapping (the external extractor is not
called). -/
theorem C4_zero_size (fd : FileDescriptor) (h0 : fd.size = 0) :
    fd.record_time = datetime_from_path fd.path ∧
    (fd.typ = MType.image → Dedup.image_meta fd = .ok (some emptyMeta)) ∧
    (fd.typ = MType.video → Dedup.video_meta fd = .ok (some emptyMeta)) := by
  refine ⟨?_, fun ht => ?_, fun ht => ?_⟩
  · cases h : datetime_from_path fd.path with
    | error e =>
      simp [FileDescriptor.record_time, h, Bind.bind, Except.bind]
    | ok r =>
      cases r with
      | some d =>
        simp [FileDescriptor.record_time, h, Bind.bind, Except.bind, Pure.pure,
          Except.pure]
      | none =>
        simp [FileDescriptor.record_time, h, h0, Bind.bind, Except.bind, Pure.pure,
          Except.pure]
  · simp [Dedup.image_meta, ht, h0]
  · simp [Dedup.video_meta, ht, h0]

/-- Witness for C4 (amended): a zero-size image in an undated directory
whose extractor would raise — the record time is still absent without
the extractor being consulted, and dedup's memoized metadata is empty. -/
theorem C4_zero_size_witness :
    FileDescriptor.record_time
        ⟨"/a/b/x.jpg", 0, "h", MType.image, .error (PyErr.extFailure "PIL")⟩
      = .ok none ∧
    Dedup.image_meta ⟨"/a/b/x.jpg", 0, "h", MType.image, .error (PyErr.extFailure "PIL")⟩
      = .ok (some emptyMeta) := by
  have h := C4_zero_size
    ⟨"/a/b/x.jpg", 0, "h", MType.image, .error (PyErr.extFailure "PIL")⟩ rfl
  exact ⟨h.1.trans (by decide), h.2.1 rfl⟩

/-- Counterexample to C3 as stated: a descriptor with a parseable image
metadata capture timestamp (2015) under a dated directory (2010/05) gets
the *path*-derived record time, not the metadata one — the code is
path-first, not metadata-first. -/
theorem C3_counterexample :
    parseImageDT "2015:01:01 00:00:00" = some ⟨2015, 1, 1, 0, 0, 0, 0⟩ ∧
    FileDescriptor.record_time
        ⟨"/a/2010/05/x.jpg", 1, "h", MType.image,
          .ok ⟨some "2015:01:01 00:00:00", none, none⟩⟩
      = .ok (some ⟨2010, 5, 1, 0, 0, 0, 0⟩) := by decide

/-- Claim C3 (amended): `record_time` resolves path-first: a successful
`.../<YYYY>/<MM>/...` or `.../<YYYY>/...` path match wins outright; only
when the path yields nothing is the size checked (absent for zero-size)
and then the type-specific metadata capture timestamp consulted
(rejecting the `1970` epoch sentinel for video); a `ValueError` from the
path-derived month propagates. -/
theorem C3_record_time_precedence (fd : FileDescriptor) :
    (∀ d, datetime_from_path fd.path = .ok (some d) →
      fd.record_time = .ok (some d)) ∧
    (datetime_from_path fd.path = .ok none → fd.size = 0 →
      fd.record_time = .ok none) ∧
    (datetime_from_path fd.path = .ok none → fd.size ≠ 0 →
      fd.record_time = metadata_time fd) ∧
    (∀ e, datetime_from_path fd.path = .error e → fd.record_time = .error e) := by
  refine ⟨fun d h => ?_, fun h h0 => ?_, fun h hsz => ?_, fun e h => ?_⟩
  · simp [FileDescriptor.record_time, h, Bind.bind, Except.bind, Pure.pure,
      Except.pure]
  · simp [FileDescriptor.record_time, h, h0, Bind.bind, Except.bind, Pure.pure,
      Except.pure]
  · simp [FileDescriptor.record_time, h, hsz, Bind.bind, Except.bind, Pure.pure,
      Except.pure, metadata_time]
  · simp [FileDescriptor.record_time, h, Bind.bind, Except.bind]

/-- Witness for C3 (amended): a dated path wins; an undated path falls
back to the image metadata timestamp. -/
theorem C3_record_time_precedence_witness :
    FileDescriptor.record_time
        ⟨"/z/2011/07/p.jpg", 4, "h", MType.image,
          .ok ⟨some "2018:03:02 09:30:00", none, none⟩⟩
      = .ok (some ⟨2011, 7, 1, 0, 0, 0, 0⟩) ∧
    FileDescriptor.record_time
        ⟨"/pics/p.jpg", 4, "h", MType.image,
          .ok ⟨some "2018:03:02 09:30:00", none, none⟩⟩
      = .ok (some ⟨2018, 3, 2, 9, 30, 0, 0⟩) := by
  constructor
  · exact (C3_record_time_precedence
      ⟨"/z/2011/07/p.jpg", 4, "h", MType.image,
        .ok ⟨some "2018:03:02 09:30:00", none, none⟩⟩).1
      ⟨2011, 7, 1, 0, 0, 0, 0⟩ (by decide)
  · exact ((C3_record_time_precedence
      ⟨"/pics/p.jpg", 4, "h", MType.image,
        .ok ⟨some "2018:03:02 09:30:00", none, none⟩⟩).2.2.1
      (by decide) (by decide)).trans (by decide)

/-- Counterexample to C2 as stated: two descriptors with equal
fingerprints whose record times agree at year+month granularity (both
2020-05) but differ in the day; the classifier predicate of `dedup.py`
(`_same_file`) is nevertheless false, because it compares full record
times for exact equality. -/
theorem C2_counterexample :
    (⟨"/pics/a.jpg", 1, "hh", MType.image,
        .ok ⟨some "2020:05:01 10:00:00", none, none⟩⟩ : FileDescriptor).hash
      = (⟨"/pics/b.jpg", 1, "hh", MType.image,
        .ok ⟨some "2020:05:02 10:00:00", none, none⟩⟩ : FileDescriptor).hash ∧
    FileDescriptor.record_time
        ⟨"/pics/a.jpg", 1, "hh", MType.image,
          .ok ⟨some "2020:05:01 10:00:00", none, none⟩⟩
      = .ok (some ⟨2020, 5, 1, 10, 0, 0, 0⟩) ∧
    FileDescriptor.record_time
        ⟨"/pics/b.jpg", 1, "hh", MType.image,
          .ok ⟨some "2020:05:02 10:00:00", none, none⟩⟩
      = .ok (some ⟨2020, 5, 2, 10, 0, 0, 0⟩) ∧
    (⟨2020, 5, 1, 10, 0, 0, 0⟩ : DTime).year = (⟨2020, 5, 2, 10, 0, 0, 0⟩ : DTime).year ∧
    (⟨2020, 5, 1, 10, 0, 0, 0⟩ : DTime).month = (⟨2020, 5, 2, 10, 0, 0, 0⟩ : DTime).month ∧
    Dedup._same_file
        ⟨"/pics/a.jpg", 1, "hh", MType.image,
          .ok ⟨some "2020:05:01 10:00:00", none, none⟩⟩
        ⟨"/pics/b.jpg", 1, "hh", MType.image,
          .ok ⟨some "2020:05:02 10:00:00", none, none⟩⟩
      = .ok false := by decide

/-- Claim C2 (amended): in `mediasort.py` the pairwise predicate
`is_same` holds iff the fingerprints agree and the record times agree at
year+month granularity with an absent time replaced by the
`datetime(1, 1, 1)` sentinel — so two equal-fingerprint descriptors with
both record times absent are the same item; in `dedup.py` the predicate
`_same_file` instead demands exactly equal record times (absent equal
only to absent), and is false without computing any record time when the
fingerprints differ. -/
theorem C2_same_item_predicates (a b : FileDescriptor) (ta tb : Option DTime)
    (ha : a.record_time = .ok ta) (hb : b.record_time = .ok tb) :
    (Mediasort.is_same a b =
      .ok (decide (a.hash = b.hash ∧
        (ta.getD dtSentinel).year = (tb.getD dtSentinel).year ∧
        (ta.getD dtSentinel).month = (tb.getD dtSentinel).month))) ∧
    (a.hash = b.hash → Dedup._same_file a b = .ok (decide (ta = tb))) ∧
    (a.hash ≠ b.hash → Dedup._same_file a b = .ok false) := by
  refine ⟨?_, fun hh => ?_, fun hh => ?_⟩
  · simp [Mediasort.is_same, ha, hb, Bind.bind, Except.bind, Pure.pure, Except.pure]
  · simp [Dedup._same_file, hh, ha, hb, Bind.bind, Except.bind, Pure.pure,
      Except.pure]
  · simp [Dedup._same_file, hh, Bind.bind, Except.bind, Pure.pure, Except.pure]

/-- Witness for C2 (amended): two equal-fingerprint descriptors with
both record times absent are the same item under both predicates. -/
theorem C2_same_item_predicates_witness :
    Mediasort.is_same
        ⟨"/x/a.bin", 9, "k", MType.other, .ok emptyMeta⟩
        ⟨"/y/b.bin", 9, "k", MType.other, .ok emptyMeta⟩
      = .ok true ∧
    Dedup._same_file
        ⟨"/x/a.bin", 9, "k", MType.other, .ok emptyMeta⟩
        ⟨"/y/b.bin", 9, "k", MType.other, .ok emptyMeta⟩
      = .ok true := by
  have h := C2_same_item_predicates
    ⟨"/x/a.bin", 9, "k", MType.other, .ok emptyMeta⟩
    ⟨"/y/b.bin", 9, "k", MType.other, .ok emptyMeta⟩
    none none (by decide) (by decide)
  exact ⟨h.1.trans (by decide), (h.2.1 rfl).trans (by decide)⟩

/-- Counterexample to C1 as stated: the destination index holds a
descriptor with the same fingerprint that is the same item per the §4.2
predicate (`is_same` is true), yet the copy is *not* skipped, because
the code compares the planned base path against the destination path of
that fingerprint instead of applying the predicate. -/
theorem C1_counterexample :
    Mediasort.is_same
        ⟨"/dst/2020/05/a (1).jpg", 1, "h", MType.image, .ok emptyMeta⟩
        ⟨"/src/2020/05/a.jpg", 1, "h", MType.image, .ok emptyMeta⟩
      = .ok true ∧
    dest_hash2path [⟨"/dst/2020/05/a (1).jpg", 1, "h", MType.image, .ok emptyMeta⟩]
        "h" = some "/dst/2020/05/a (1).jpg" ∧
    reorganize_item (fun _ => false) []
        (dest_hash2path [⟨"/dst/2020/05/a (1).jpg", 1, "h", MType.image, .ok emptyMeta⟩])
        "/dst" ⟨"/src/2020/05/a.jpg", 1, "h", MType.image, .ok emptyMeta⟩
      = .ok (some "/dst/2020/5/a.jpg") := by decide

/-- Claim C1 (amended): for a source descriptor that passes the
zero-size, duplicate-path and media-type gates (and whose `record_time`
returns), the copy is skipped exactly when the destination hash→path map
sends the descriptor's fingerprint to a path equal to the planned base
output path (compared before any `" (N)"` suffixing); otherwise the item
is copied to the suffix-resolved path.  The §4.2 same-item predicate is
not consulted. -/
theorem C1_skip_condition (onDisk : String → Bool) (duplicates : List String)
    (h2p : String → Option String) (dest : String) (fd : FileDescriptor)
    (dt : Option DTime)
    (hs : fd.size ≠ 0) (hd : fd.path ∉ duplicates)
    (ht : fd.typ = MType.image ∨ fd.typ = MType.video)
    (hrt : fd.record_time = .ok dt) :
    (reorganize_item onDisk duplicates h2p dest fd = .ok none ↔
      h2p fd.hash = some (base_out_path dest fd dt)) ∧
    (h2p fd.hash ≠ some (base_out_path dest fd dt) →
      reorganize_item onDisk duplicates h2p dest fd =
        .ok (some (maybe_increment_path onDisk (base_out_path dest fd dt)))) := by
  have htgate : ¬ (fd.typ ≠ MType.image ∧ fd.typ ≠ MType.video) := by
    rcases ht with h | h <;> simp [h]
  have hred : reorganize_item onDisk duplicates h2p dest fd =
      (match h2p fd.hash with
       | some p =>
         if base_out_path dest fd dt = p then Except.ok none
         else Except.ok (some (maybe_increment_path onDisk (base_out_path dest fd dt)))
       | none =>
         Except.ok (some (maybe_increment_path onDisk (base_out_path dest fd dt)))) := by
    simp [reorganize_item, hs, hd, htgate, hrt, Bind.bind, Except.bind, Pure.pure,
      Except.pure]
  rw [hred]
  constructor
  · cases hh : h2p fd.hash with
    | none => simp
    | some p =>
      by_cases hbase : base_out_path dest fd dt = p
      · subst hbase
        simp
      · show (if base_out_path dest fd dt = p then Except.ok none
            else Except.ok (some (maybe_increment_path onDisk (base_out_path dest fd dt))))
            = Except.ok none ↔ some p = some (base_out_path dest fd dt)
        rw [if_neg hbase]
        constructor
        · intro hcon
          exact absurd hcon (by simp)
        · intro hcon
          exact absurd (Option.some.inj hcon).symm hbase
  · intro hne
    cases hh : h2p fd.hash with
    | none => rfl
    | some p =>
      have hbase : base_out_path dest fd dt ≠ p := by
        intro he
        exact hne (by rw [hh, he])
      show (if base_out_path dest fd dt = p then Except.ok none
          else Except.ok (some (maybe_increment_path onDisk (base_out_path dest fd dt))))
          = Except.ok (some (maybe_increment_path onDisk (base_out_path dest fd dt)))
      rw [if_neg hbase]

/-- Witness for C1 (amended): the same source descriptor is skipped when
the destination map sends its fingerprint to exactly the planned base
path, and copied when the map has no entry for the fingerprint. -/
theorem C1_skip_condition_witness :
    reorganize_item (fun _ => false) [] (fun _ => some "/dst/2020/5/a.jpg") "/dst"
        ⟨"/src/2020/05/a.jpg", 1, "h", MType.image, .ok emptyMeta⟩ = .ok none ∧
    reorganize_item (fun _ => false) [] (fun _ => none) "/dst"
        ⟨"/src/2020/05/a.jpg", 1, "h", MType.image, .ok emptyMeta⟩
      = .ok (some "/dst/2020/5/a.jpg") := by
  constructor
  · exact (C1_skip_condition (fun _ => false) [] (fun _ => some "/dst/2020/5/a.jpg")
      "/dst" ⟨"/src/2020/05/a.jpg", 1, "h", MType.image, .ok emptyMeta⟩
      (some ⟨2020, 5, 1, 0, 0, 0, 0⟩) (by decide) (by decide) (Or.inl rfl)
      (by decide)).1.mpr (by decide)
  · exact ((C1_skip_condition (fun _ => false) [] (fun _ => none)
      "/dst" ⟨"/src/2020/05/a.jpg", 1, "h", MType.image, .ok emptyMeta⟩
      (some ⟨2020, 5, 1, 0, 0, 0, 0⟩) (by decide) (by decide) (Or.inl rfl)
      (by decide)).2 (by decide)).trans (by decide)

/-- Helper: inserting one element after the first of four concatenated
blocks is a permutation of appending it at the end. -/
theorem permInsEmpty {α : Type} (E D C R rest : List α) (x : α) :
    (((E ++ [x]) ++ D ++ C ++ R) ++ rest).Perm ((E ++ D ++ C ++ R) ++ (x :: rest)) := by
  have h : ((E ++ [x]) ++ D ++ C ++ R).Perm ((E ++ D ++ C ++ R) ++ [x]) := by
    rw [← Multiset.coe_eq_coe]
    simp only [← Multiset.coe_add]
    abel
  refine (h.append_right rest).trans ?_
  rw [List.append_assoc]
  exact List.Perm.refl _

/-- Helper: the same for an insertion into the second block. -/
theorem permInsDup {α : Type} (E D C R rest : List α) (x : α) :
    ((E ++ (D ++ [x]) ++ C ++ R) ++ rest).Perm ((E ++ D ++ C ++ R) ++ (x :: rest)) := by
  have h : (E ++ (D ++ [x]) ++ C ++ R).Perm ((E ++ D ++ C ++ R) ++ [x]) := by
    rw [← Multiset.coe_eq_coe]
    simp only [← Multiset.coe_add]
    abel
  refine (h.append_right rest).trans ?_
  rw [List.append_assoc]
  exact List.Perm.refl _

/-- Helper: the same for an insertion into the third block. -/
theorem permInsCol {α : Type} (E D C R rest : List α) (x : α) :
    ((E ++ D ++ (C ++ [x]) ++ R) ++ rest).Perm ((E ++ D ++ C ++ R) ++ (x :: rest)) := by
  have h : (E ++ D ++ (C ++ [x]) ++ R).Perm ((E ++ D ++ C ++ R) ++ [x]) := by
    rw [← Multiset.coe_eq_coe]
    simp only [← Multiset.coe_add]
    abel
  refine (h.append_right rest).trans ?_
  rw [List.append_assoc]
  exact List.Perm.refl _

/-- Helper: the same for an insertion into the fourth block. -/
theorem permInsRep {α : Type} (E D C R rest : List α) (x : α) :
    ((E ++ D ++ C ++ (R ++ [x])) ++ rest).Perm ((E ++ D ++ C ++ R) ++ (x :: rest)) := by
  have h : (E ++ D ++ C ++ (R ++ [x])).Perm ((E ++ D ++ C ++ R) ++ [x]) := by
    rw [← Multiset.coe_eq_coe]
    simp only [← Multiset.coe_add]
    abel
  refine (h.append_right rest).trans ?_
  rw [List.append_assoc]
  exact List.Perm.refl _

/-- Helper: a successful `alookup` returns one of the stored values. -/
theorem alookup_mem (m : List (String × FileDescriptor)) (k : String)
    (v : FileDescriptor) (h : alookup m k = some v) : v ∈ m.map Prod.snd := by
  unfold alookup at h
  cases hf : m.find? (fun p => p.1 = k) with
  | none => rw [hf] at h; cases h
  | some p =>
    rw [hf] at h
    injection h with h
    subst h
    exact List.mem_map.mpr ⟨p, List.mem_of_find?_eq_some hf, rfl⟩

/-- Helper invariant of the `find_issues` loop: the items accounted for
by the final state are a permutation of those accounted for by the
initial state plus the traversed input; the representative map only
grows; and every pair's first component that the loop added is a stored
representative. -/
theorem findIssuesAux_partition (same : FileDescriptor → FileDescriptor → Except PyErr Bool) :
    ∀ (l : List FileDescriptor) (st st' : IssuesState),
      findIssuesAux same l st = .ok st' →
      (issuesMultiset st').Perm (issuesMultiset st ++ l) ∧
      (∀ x, x ∈ st.hashes.map Prod.snd → x ∈ st'.hashes.map Prod.snd) ∧
      (∀ pr, pr ∈ st'.duplicates →
        pr ∈ st.duplicates ∨ pr.1 ∈ st'.hashes.map Prod.snd) ∧
      (∀ pr, pr ∈ st'.collisions →
        pr ∈ st.collisions ∨ pr.1 ∈ st'.hashes.map Prod.snd)
  | [], st, st', h => by
    rw [findIssuesAux] at h
    injection h with h
    subst h
    exact ⟨by simp, fun x hx => hx, fun pr hpr => Or.inl hpr, fun pr hpr => Or.inl hpr⟩
  | fd :: rest, st, st', h => by
    rw [findIssuesAux] at h
    split at h
    case isTrue h0 =>
      obtain ⟨p1, p2, p3, p4⟩ := findIssuesAux_partition same rest _ st' h
      refine ⟨?_, p2, p3, p4⟩
      refine p1.trans ?_
      exact permInsEmpty st.empty (st.duplicates.map Prod.snd)
        (st.collisions.map Prod.snd) (st.hashes.map Prod.snd) rest fd
    case isFalse h0 =>
      split at h
      next efd ha =>
        cases hb : same efd fd with
        | error e =>
          rw [hb] at h
          simp [Bind.bind, Except.bind] at h
        | ok b =>
          rw [hb] at h
          simp only [Bind.bind, Except.bind] at h
          have hefd : efd ∈ st.hashes.map Prod.snd := alookup_mem _ _ _ ha
          cases b with
          | true =>
            rw [if_pos rfl] at h
            obtain ⟨p1, p2, p3, p4⟩ := findIssuesAux_partition same rest _ st' h
            refine ⟨?_, p2, ?_, ?_⟩
            · refine p1.trans ?_
              have hms : issuesMultiset { st with duplicates := st.duplicates ++ [(efd, fd)] }
                  = st.empty ++ (st.duplicates.map Prod.snd ++ [fd]) ++
                    st.collisions.map Prod.snd ++ st.hashes.map Prod.snd := by
                simp [issuesMultiset]
              rw [hms]
              exact permInsDup st.empty (st.duplicates.map Prod.snd)
                (st.collisions.map Prod.snd) (st.hashes.map Prod.snd) rest fd
            · intro pr hpr
              rcases p3 pr hpr with hin | hh
              · rcases List.mem_append.mp hin with hin | hin
                · exact Or.inl hin
                · have hpr1 : pr = (efd, fd) := by simpa using hin
                  subst hpr1
                  exact Or.inr (p2 efd hefd)
              · exact Or.inr hh
            · exact p4
          | false =>
            rw [if_neg (by simp)] at h
            obtain ⟨p1, p2, p3, p4⟩ := findIssuesAux_partition same rest _ st' h
            refine ⟨?_, p2, p3, ?_⟩
            · refine p1.trans ?_
              have hms : issuesMultiset { st with collisions := st.collisions ++ [(efd, fd)] }
                  = st.empty ++ st.duplicates.map Prod.snd ++
                    (st.collisions.map Prod.snd ++ [fd]) ++ st.hashes.map Prod.snd := by
                simp [issuesMultiset]
              rw [hms]
              exact permInsCol st.empty (st.duplicates.map Prod.snd)
                (st.collisions.map Prod.snd) (st.hashes.map Prod.snd) rest fd
            · intro pr hpr
              rcases p4 pr hpr with hin | hh
              · rcases List.mem_append.mp hin with hin | hin
                · exact Or.inl hin
                · have hpr1 : pr = (efd, fd) := by simpa using hin
                  subst hpr1
                  exact Or.inr (p2 efd hefd)
              · exact Or.inr hh
      next ha =>
        obtain ⟨p1, p2, p3, p4⟩ := findIssuesAux_partition same rest _ st' h
        refine ⟨?_, ?_, p3, p4⟩
        · refine p1.trans ?_
          have hms : issuesMultiset { st with hashes := st.hashes ++ [(fd.hash, fd)] }
              = st.empty ++ st.duplicates.map Prod.snd ++ st.collisions.map Prod.snd ++
                (st.hashes.map Prod.snd ++ [fd]) := by
            simp [issuesMultiset]
          rw [hms]
          exact permInsRep st.empty (st.duplicates.map Prod.snd)
            (st.collisions.map Prod.snd) (st.hashes.map Prod.snd) rest fd
        · intro x hx
          refine p2 x ?_
          simp only [List.map_append, List.mem_append]
          exact Or.inl hx

/-- Counterexample to C7 as stated: three identical-fingerprint
descriptors where the representative matches the second at year+month
but not the third — the representative then appears both among the items
of the duplicate pairs and among the items of the collision pairs, so
the duplicate set and the collision set are not disjoint. -/
theorem C7_counterexample :
    Mediasort.find_issues
        [⟨"/x/2020/05/a.jpg", 1, "h", MType.image, .ok emptyMeta⟩,
         ⟨"/x/2020/05/b.jpg", 1, "h", MType.image, .ok emptyMeta⟩,
         ⟨"/x/2021/03/c.jpg", 1, "h", MType.image, .ok emptyMeta⟩]
      = .ok ⟨[("h", ⟨"/x/2020/05/a.jpg", 1, "h", MType.image, .ok emptyMeta⟩)],
          [(⟨"/x/2020/05/a.jpg", 1, "h", MType.image, .ok emptyMeta⟩,
            ⟨"/x/2021/03/c.jpg", 1, "h", MType.image, .ok emptyMeta⟩)],
          [(⟨"/x/2020/05/a.jpg", 1, "h", MType.image, .ok emptyMeta⟩,
            ⟨"/x/2020/05/b.jpg", 1, "h", MType.image, .ok emptyMeta⟩)],
          []⟩ ∧
    (⟨"/x/2020/05/a.jpg", 1, "h", MType.image, .ok emptyMeta⟩ : FileDescriptor) ∈
      (([(⟨"/x/2020/05/a.jpg", 1, "h", MType.image, .ok emptyMeta⟩,
          ⟨"/x/2020/05/b.jpg", 1, "h", MType.image, .ok emptyMeta⟩)] :
            List (FileDescriptor × FileDescriptor)).map Prod.fst ++
       ([(⟨"/x/2020/05/a.jpg", 1, "h", MType.image, .ok emptyMeta⟩,
          ⟨"/x/2020/05/b.jpg", 1, "h", MType.image, .ok emptyMeta⟩)] :
            List (FileDescriptor × FileDescriptor)).map Prod.snd) ∧
    (⟨"/x/2020/05/a.jpg", 1, "h", MType.image, .ok emptyMeta⟩ : FileDescriptor) ∈
      (([(⟨"/x/2020/05/a.jpg", 1, "h", MType.image, .ok emptyMeta⟩,
          ⟨"/x/2021/03/c.jpg", 1, "h", MType.image, .ok emptyMeta⟩)] :
            List (FileDescriptor × FileDescriptor)).map Prod.fst ++
       ([(⟨"/x/2020/05/a.jpg", 1, "h", MType.image, .ok emptyMeta⟩,
          ⟨"/x/2021/03/c.jpg", 1, "h", MType.image, .ok emptyMeta⟩)] :
            List (FileDescriptor × FileDescriptor)).map Prod.snd) := by
  decide

/-- Claim C7 (amended): when `find_issues` returns, the empty files, the
*second* components of the duplicate pairs, the *second* components of
the collision pairs and the per-fingerprint representatives exactly
reconstruct the input as a multiset; every pair's first component is a
stored representative — it is already accounted for, and one
representative may head both duplicate and collision pairs, so the sets
of items appearing in duplicate pairs and in collision pairs need not be
disjoint. -/
theorem C7_partition (same : FileDescriptor → FileDescriptor → Except PyErr Bool)
    (l : List FileDescriptor) (st : IssuesState)
    (h : findIssuesRun same l = .ok st) :
    (issuesMultiset st).Perm l ∧
    (∀ pr, pr ∈ st.duplicates → pr.1 ∈ st.hashes.map Prod.snd) ∧
    (∀ pr, pr ∈ st.collisions → pr.1 ∈ st.hashes.map Prod.snd) := by
  obtain ⟨p1, p2, p3, p4⟩ := findIssuesAux_partition same l _ st h
  refine ⟨p1.trans (by simp [issuesMultiset]), fun pr hpr => ?_, fun pr hpr => ?_⟩
  · rcases p3 pr hpr with hin | hh
    · simp at hin
    · exact hh
  · rcases p4 pr hpr with hin | hh
    · simp at hin
    · exact hh

/-- Witness for C7 (amended), on a concrete three-element input through
`mediasort.find_issues`: an empty file, a dated image and its duplicate. -/
theorem C7_partition_witness :
    Mediasort.find_issues
        [⟨"/q/e.jpg", 0, "z", MType.image, .ok emptyMeta⟩,
         ⟨"/q/2020/05/f.jpg", 2, "g", MType.image, .ok emptyMeta⟩,
         ⟨"/r/2020/05/f2.jpg", 2, "g", MType.image, .ok emptyMeta⟩]
      = .ok ⟨[("g", ⟨"/q/2020/05/f.jpg", 2, "g", MType.image, .ok emptyMeta⟩)],
          [],
          [(⟨"/q/2020/05/f.jpg", 2, "g", MType.image, .ok emptyMeta⟩,
            ⟨"/r/2020/05/f2.jpg", 2, "g", MType.image, .ok emptyMeta⟩)],
          [⟨"/q/e.jpg", 0, "z", MType.image, .ok emptyMeta⟩]⟩ ∧
    (issuesMultiset
        ⟨[("g", ⟨"/q/2020/05/f.jpg", 2, "g", MType.image, .ok emptyMeta⟩)],
          [],
          [(⟨"/q/2020/05/f.jpg", 2, "g", MType.image, .ok emptyMeta⟩,
            ⟨"/r/2020/05/f2.jpg", 2, "g", MType.image, .ok emptyMeta⟩)],
          [⟨"/q/e.jpg", 0, "z", MType.image, .ok emptyMeta⟩]⟩).Perm
      [⟨"/q/e.jpg", 0, "z", MType.image, .ok emptyMeta⟩,
       ⟨"/q/2020/05/f.jpg", 2, "g", MType.image, .ok emptyMeta⟩,
       ⟨"/r/2020/05/f2.jpg", 2, "g", MType.image, .ok emptyMeta⟩] := by
  have hrun : Mediasort.find_issues
      [⟨"/q/e.jpg", 0, "z", MType.image, .ok emptyMeta⟩,
       ⟨"/q/2020/05/f.jpg", 2, "g", MType.image, .ok emptyMeta⟩,
       ⟨"/r/2020/05/f2.jpg", 2, "g", MType.image, .ok emptyMeta⟩]
      = .ok ⟨[("g", ⟨"/q/2020/05/f.jpg", 2, "g", MType.image, .ok emptyMeta⟩)],
          [],
          [(⟨"/q/2020/05/f.jpg", 2, "g", MType.image, .ok emptyMeta⟩,
            ⟨"/r/2020/05/f2.jpg", 2, "g", MType.image, .ok emptyMeta⟩)],
          [⟨"/q/e.jpg", 0, "z", MType.image, .ok emptyMeta⟩]⟩ := by decide
  exact ⟨hrun, (C7_partition Mediasort.is_same _ _ hrun).1⟩

/-- Witness for C10, at one concrete source-root list. -/
theorem C10_reorganize_raises_nameError_witness :
    (runCalls mediasortModuleNames (reorganizeModuleCalls ["/backup"])).2
      = some (PyErr.nameError "build_index") :=
  (C10_reorganize_raises_nameError ["/backup"]).2.1
